import Mathlib

/-!
# Trusted services dispatch engine (`os/common/ports/ARMCAx-TZ/chtssi.c`)

A shallow embedding of the request validation, service discovery and
rendezvous code of `chtssi.c`, and theorems about it.

Conventions of the embedding.

* The port is a 32-bit ARM Cortex-A: pointers, `size_t` and `uint32_t` are
  32-bit words, represented by natural numbers below `2 ^ 32`; pointer
  arithmetic is taken modulo `2 ^ 32`.  `NULL` is the address `0`, except for
  thread references and names, which are `Option`s (`none` is `NULL`).
* The difference of two pointers has the C type `ptrdiff_t`, a signed 32-bit
  integer: it is represented by an `Int` obtained from the 32-bit word of the
  difference (`toInt32`).
* `msg_t` is `int32_t`, represented by an `Int`.  The `int64_t` value returned
  by `smcEntry` is represented by its 64-bit two's complement bit pattern.
* The constants and macros of `chtssi.h` and of the kernel headers are the
  fields of `Config`; the storage `ts_state[]` and `ts_configs[]` are
  functions of the index.
-/

namespace TSSI

/-- The number of values of a 32-bit word. -/
def WORD : Nat := 4294967296

/-- Constants and macros of `chtssi.h` and of the kernel headers that the code uses. -/
structure Config where
  /-- The first address of the non secure memory space. -/
  NSEC_MEMORY_START_ADDR : Nat
  /-- The first address past the non secure memory space. -/
  NSEC_MEMORY_END_ADDR : Nat
  /-- The address of `ts_state[0]`. -/
  ts_state_addr : Nat
  /-- The value of `sizeof (ts_state_t)`. -/
  ts_state_size : Nat
  TS_MAX_SVCS : Nat
  TS_MAX_TMO : Nat
  TS_HND_STQRY : Nat
  TS_HND_IDLE : Nat
  TS_HND_VERSION : Nat
  TS_HND_DISCOVERY : Nat
  TSSI_VERSION : Int
  SMC_SVC_INVALID : Int
  SMC_SVC_BADH : Int
  SMC_SVC_BUSY : Int
  SMC_SVC_NOENT : Int
  MSG_OK : Int
  NORMALPRIO : Nat
  HIGHPRIO : Nat

/-- The signed value of a 32-bit word (conversion to `int32_t` or `ptrdiff_t`). -/
def toInt32 (w : Nat) : Int :=
  if w % WORD < 2147483648 then ((w % WORD : Nat) : Int)
  else ((w % WORD : Nat) : Int) - 4294967296

/-- Pointer addition `p + n` on a 32-bit machine. -/
def ptrAdd (p n : Nat) : Nat := (p + n) % WORD

/-- Pointer subtraction `p - n` of an integer on a 32-bit machine. -/
def ptrSub (p n : Nat) : Nat := (p % WORD + WORD - n % WORD) % WORD

/-- Pointer difference `p - q` of two byte pointers, of type `ptrdiff_t`. -/
def ptrDiff (p q : Nat) : Int := toInt32 (ptrSub p q)

/-- The function `isAddrSpaceValid` of `chtssi.c`. -/
def isAddrSpaceValid (cfg : Config) (addr size : Nat) : Bool :=
  if size = 0 then true
  else
    decide (ptrDiff addr cfg.NSEC_MEMORY_START_ADDR <
            ptrDiff cfg.NSEC_MEMORY_END_ADDR cfg.NSEC_MEMORY_START_ADDR) &&
    decide (ptrDiff (ptrAdd addr size) cfg.NSEC_MEMORY_START_ADDR <
            ptrDiff cfg.NSEC_MEMORY_END_ADDR cfg.NSEC_MEMORY_START_ADDR)

/-- The function `tsIsAddrSpaceValid` of `chtssi.c`. -/
def tsIsAddrSpaceValid (cfg : Config) (addr size : Nat) : Bool :=
  isAddrSpaceValid cfg addr size

/-- The macro `TS_STATE(idx)`, the address `&ts_state[idx]`. -/
def TS_STATE (cfg : Config) (idx : Nat) : Nat :=
  cfg.ts_state_addr + idx * cfg.ts_state_size

/-- The function `isHndlValid` of `chtssi.c`. -/
def isHndlValid (cfg : Config) (handle : Nat) : Bool :=
  if handle < TS_STATE cfg 0 ∨ handle ≥ TS_STATE cfg cfg.TS_MAX_SVCS then false
  else if (handle - TS_STATE cfg 0) % cfg.ts_state_size ≠ 0 then false
  else true

/-- The fields of `thread_descriptor_t` that `chtssi.c` reads.  A name is
`NULL` (`none`) or a C string, given by its bytes before the terminator. -/
structure thread_descriptor_t where
  name : Option (List Nat)
  prio : Nat
  arg : Nat

/-- The structure `ts_state_t`, the runtime state of a service. -/
structure ts_state_t where
  ts_status : Int
  ts_thdp : Option Nat
  ts_datap : Nat
  ts_datalen : Nat

/-- The variables the engine works on: the table `ts_state[]`, the reference
`_ns_thread`, the flags pending in `tsEventListener`, and the byte memory that
request buffers point into. -/
structure State where
  ts_state : Nat → ts_state_t
  _ns_thread : Option Nat
  flags : Nat
  mem : Nat → Nat

/-- The index of the slot a handle points to: `handle - TS_STATE(0)` in elements. -/
def slotIndex (cfg : Config) (handle : Nat) : Nat :=
  (handle - TS_STATE cfg 0) / cfg.ts_state_size

/-- The macro `LOWORD`: `(int64_t)in64 & 0x0FFFFFFFF`. -/
def LOWORD (in64 : Int) : Nat := (in64 % 4294967296).toNat

/-- The test `!strcmp(s, p)`, for a C string `s` given by its bytes before the
terminator and a pointer `p` into the memory. -/
def strcmpEq (mem : Nat → Nat) : List Nat → Nat → Bool
  | [], p => mem p == 0
  | c :: cs, p => mem p == c && strcmpEq mem cs (ptrAdd p 1)

/-- The loop of `findSvcsEntry`, with `n` iterations left, at index `i`. -/
def findSvcsEntryLoop (ts_configs : Nat → thread_descriptor_t) (mem : Nat → Nat)
    (name : Nat) : Nat → Nat → Nat
  | 0, _ => 0
  | n + 1, i =>
    match (ts_configs i).name with
    | none => findSvcsEntryLoop ts_configs mem name n (i + 1)
    | some nm =>
      if strcmpEq mem nm name then (ts_configs i).arg
      else findSvcsEntryLoop ts_configs mem name n (i + 1)

/-- The function `findSvcsEntry` of `chtssi.c`. -/
def findSvcsEntry (cfg : Config) (ts_configs : Nat → thread_descriptor_t)
    (mem : Nat → Nat) (name : Nat) : Nat :=
  findSvcsEntryLoop ts_configs mem name cfg.TS_MAX_SVCS 0

/-- The string a bounded buffer holds: the bytes from `p` up to the first
terminator, `len` bytes at most. -/
def bufferString (mem : Nat → Nat) : Nat → Nat → List Nat
  | 0, _ => []
  | len + 1, p => if mem p = 0 then [] else mem p :: bufferString mem len (ptrAdd p 1)

/-- Modelled from the spec: the scheduler's `chThdResumeS` and `chThdResumeI`,
which are not part of the sources, applied to the reference `ts_thdp` of slot
`i`: the referenced worker, if any, is woken with `msg` and the reference is
cleared.  The result is the woken thread with its message, and the state. -/
def chThdResume_ts_thdp (s : State) (i : Nat) (msg : Int) : Option (Nat × Int) × State :=
  ((s.ts_state i).ts_thdp.map fun tp => (tp, msg),
   { s with ts_state := Function.update s.ts_state i { s.ts_state i with ts_thdp := none } })

/-- Modelled from the spec: the scheduler's `chThdResumeI`, which is not part of
the sources, applied to `_ns_thread`: the pending caller, if any, is woken with
`msg` and the reference is cleared. -/
def chThdResume_ns_thread (s : State) (msg : Int) : Option (Nat × Int) × State :=
  (s._ns_thread.map fun tp => (tp, msg), { s with _ns_thread := none })

/-- Modelled from the spec: the scheduler's `chThdSuspendTimeoutS`, which is not
part of the sources, applied to `_ns_thread`: the calling thread `self` is
recorded in the reference and suspended. -/
def chThdSuspend_ns_thread (s : State) (self : Nat) : State :=
  { s with _ns_thread := some self }

/-- Modelled from the spec: the scheduler's `chThdSuspendS`, which is not part
of the sources, applied to the reference `ts_thdp` of slot `i`: the calling
worker `self` is recorded in the reference and suspended. -/
def chThdSuspend_ts_thdp (s : State) (i : Nat) (self : Nat) : State :=
  { s with ts_state := Function.update s.ts_state i { s.ts_state i with ts_thdp := some self } }

/-- Modelled from the spec: `chEvtGetAndClearFlagsI` on `tsEventListener`, which
is not part of the sources: the pending flags are returned and cleared. -/
def chEvtGetAndClearFlagsI (s : State) : Nat × State :=
  (s.flags, { s with flags := 0 })

/-- Modelled from the spec: the event publishing facility (`chEvtBroadcastFlags`
on `tsEventSource`), which is not part of the sources: the published mask is
ORed into the flags pending in the listener. -/
def chEvtBroadcastFlags (s : State) (mask : Nat) : State :=
  { s with flags := s.flags ||| mask }

/-- Modelled from the spec: what the worker of slot `i` does between its wake up
and its next call of `tssiWaitRequest`; the services are not part of the
sources.  It publishes the event masks `masks`, in this order, and leaves the
status `st` in `ts_status`. -/
def workerProcess (s : State) (i : Nat) (st : Int) (masks : List Nat) : State :=
  let s1 := masks.foldl chEvtBroadcastFlags s
  { s1 with ts_state := Function.update s1.ts_state i { s1.ts_state i with ts_status := st } }

/-- What a call of `smcEntry` does up to the point where it returns or suspends
the caller. -/
inductive Outcome where
  /-- The call returned `value` without entering the wait path. -/
  | returned (value : Nat) (s : State)
  /-- The call entered the wait path: the worker `resumed`, if any, was woken
  with its message, and the caller is suspended for `timeout` microseconds. -/
  | suspended (resumed : Option (Nat × Int)) (timeout : Nat) (s : State)

/-- The wait path of `smcEntry`, from the limiting of the timeout to the call of
`chThdSuspendTimeoutS`; `tssp` is `0` when no service is dispatched. -/
def smcEntryWait (cfg : Config) (self : Nat) (s : State) (tssp svc_timeout : Nat) : Outcome :=
  let svc_timeout := if svc_timeout > cfg.TS_MAX_TMO then cfg.TS_MAX_TMO else svc_timeout
  let rs := if tssp ≠ 0 then chThdResume_ts_thdp s (slotIndex cfg tssp) cfg.MSG_OK else (none, s)
  Outcome.suspended rs.1 svc_timeout (chThdSuspend_ns_thread rs.2 self)

/-- The function `smcEntry` of `chtssi.c`, called by the thread `self`, up to
the point where it returns or suspends the caller. -/
def smcEntry (cfg : Config) (ts_configs : Nat → thread_descriptor_t) (self : Nat) (s : State)
    (svc_handle svc_data svc_datalen svc_timeout : Nat) : Outcome :=
  if svc_handle = cfg.TS_HND_STQRY then
    let tsqryd := svc_data
    if !isHndlValid cfg tsqryd then
      Outcome.returned (LOWORD cfg.SMC_SVC_BADH) s
    else if (s.ts_state (slotIndex cfg tsqryd)).ts_thdp ≠ none then
      Outcome.returned (LOWORD (s.ts_state (slotIndex cfg tsqryd)).ts_status) s
    else smcEntryWait cfg self s 0 svc_timeout
  else if svc_handle ≠ cfg.TS_HND_IDLE then
    if !isAddrSpaceValid cfg svc_data svc_datalen then
      Outcome.returned (LOWORD cfg.SMC_SVC_INVALID) s
    else if svc_handle = cfg.TS_HND_VERSION then
      Outcome.returned (LOWORD cfg.TSSI_VERSION) s
    else if svc_handle = cfg.TS_HND_DISCOVERY then
      let s1 : State :=
        if svc_datalen ≠ 0 then
          { s with mem := Function.update s.mem (ptrSub (ptrAdd svc_data svc_datalen) 1) 0 }
        else s
      let tssp := if svc_datalen ≠ 0 then findSvcsEntry cfg ts_configs s1.mem svc_data else 0
      if tssp = 0 then Outcome.returned (LOWORD cfg.SMC_SVC_NOENT) s1
      else Outcome.returned (LOWORD (toInt32 tssp)) s1
    else
      if !isHndlValid cfg svc_handle then
        Outcome.returned (LOWORD cfg.SMC_SVC_BADH) s
      else
        let tssp := svc_handle
        let i := slotIndex cfg tssp
        if (s.ts_state i).ts_thdp = none then
          Outcome.returned (LOWORD cfg.SMC_SVC_BUSY) s
        else
          let slot : ts_state_t :=
            { s.ts_state i with ts_datap := svc_data, ts_datalen := svc_datalen }
          let s1 : State := { s with ts_state := Function.update s.ts_state i slot }
          smcEntryWait cfg self s1 tssp svc_timeout
  else smcEntryWait cfg self s 0 svc_timeout

/-- The rest of `smcEntry`, after `chThdSuspendTimeoutS` has returned the wake
up message `r`: the pending flags are taken and the packed value is returned. -/
def smcEntryWake (s : State) (r : Int) : Nat × State :=
  let fs := chEvtGetAndClearFlagsI s
  (LOWORD r ||| (fs.1 <<< 32), fs.2)

/-- The function `tssiWaitRequest` of `chtssi.c`, called by the worker `self`,
up to the point where the worker is suspended: the result is the caller woken
with its message, if one was pending, and the state. -/
def tssiWaitRequest (cfg : Config) (self : Nat) (s : State) (svcp : Nat) :
    Option (Nat × Int) × State :=
  let i := slotIndex cfg svcp
  let rs := if s._ns_thread ≠ none then chThdResume_ns_thread s (s.ts_state i).ts_status
            else (none, s)
  (rs.1, chThdSuspend_ts_thdp rs.2 i self)

/-- Which check of `tssiInit` stopped the system. -/
inductive HaltCause where
  | badState
  | badPrio
  deriving DecidableEq

/-- The calls `tssiInit` makes to the kernel while it initializes the services. -/
inductive InitCall where
  | chThdSetPriority (prio : Nat)
  | chSysHalt (cause : HaltCause)
  | chThdCreate (idx : Nat)
  | chEvtRegister
  deriving DecidableEq

/-- The loop of `tssiInit` over the services, with `n` iterations left, at
index `i`; `rest` is what follows the loop.  `chSysHalt` does not return. -/
def tssiInitLoop (cfg : Config) (ts_configs : Nat → thread_descriptor_t)
    (rest : List InitCall) : Nat → Nat → List InitCall
  | 0, _ => rest
  | n + 1, i =>
    if (ts_configs i).arg = 0 then tssiInitLoop cfg ts_configs rest n (i + 1)
    else if (ts_configs i).arg ≠ TS_STATE cfg i then [InitCall.chSysHalt HaltCause.badState]
    else if (ts_configs i).prio ≤ cfg.NORMALPRIO ∨ (ts_configs i).prio ≥ cfg.HIGHPRIO then
      [InitCall.chSysHalt HaltCause.badPrio]
    else InitCall.chThdCreate i :: tssiInitLoop cfg ts_configs rest n (i + 1)

/-- The part of `tssiInit` from `chThdSetPriority(NORMALPRIO)` to
`chThdSetPriority(HIGHPRIO)`, as the sequence of kernel calls it makes. -/
def tssiInit (cfg : Config) (ts_configs : Nat → thread_descriptor_t) : List InitCall :=
  InitCall.chThdSetPriority cfg.NORMALPRIO ::
    tssiInitLoop cfg ts_configs
      [InitCall.chEvtRegister, InitCall.chThdSetPriority cfg.HIGHPRIO] cfg.TS_MAX_SVCS 0

/-- Whether a sequence of kernel calls stops the system. -/
def halts (calls : List InitCall) : Bool :=
  calls.any fun c => match c with
    | InitCall.chSysHalt _ => true
    | _ => false

/-- The value an outcome returns, when the call returned. -/
def Outcome.value? : Outcome → Option Nat
  | Outcome.returned v _ => some v
  | Outcome.suspended _ _ _ => none

/-- The state an outcome leaves. -/
def Outcome.state : Outcome → State
  | Outcome.returned _ s => s
  | Outcome.suspended _ _ s => s

/-- An example configuration: the non secure space is the lower 112 MB of the
DDR memory at `0x20000000`, as the comment in `tssiInit` describes it. -/
def exampleConfig : Config where
  NSEC_MEMORY_START_ADDR := 0x20000000
  NSEC_MEMORY_END_ADDR := 0x27000000
  ts_state_addr := 0x27000100
  ts_state_size := 16
  TS_MAX_SVCS := 4
  TS_MAX_TMO := 10000
  TS_HND_STQRY := 2
  TS_HND_IDLE := 3
  TS_HND_VERSION := 4
  TS_HND_DISCOVERY := 1
  TSSI_VERSION := 0x01000000
  SMC_SVC_INVALID := -3
  SMC_SVC_BADH := -4
  SMC_SVC_BUSY := -7
  SMC_SVC_NOENT := -2
  MSG_OK := 0
  NORMALPRIO := 128
  HIGHPRIO := 255

/-- An example table of services: two services, `"ab"` and `"c"`, in slots 0 and 2. -/
def exampleTable : Nat → thread_descriptor_t := fun i =>
  if i = 0 then { name := some [97, 98], prio := 130, arg := 0x27000100 }
  else if i = 2 then { name := some [99], prio := 140, arg := 0x27000120 }
  else { name := none, prio := 0, arg := 0 }

/-- A second example table: slot 1 carries the name `"c"` and no state (its
`arg` is `NULL`, so `tssiInit` skips it), slot 2 is the service `"c"`. -/
def exampleTableUnbound : Nat → thread_descriptor_t := fun i =>
  if i = 1 then { name := some [99], prio := 0, arg := 0 }
  else if i = 2 then { name := some [99], prio := 140, arg := 0x27000120 }
  else { name := none, prio := 0, arg := 0 }

/-- An example state: the worker of slot 0 (thread 10) waits for a request,
the worker of slot 2 is busy, no caller is pending. -/
def exampleState : State where
  ts_state := fun i =>
    if i = 0 then { ts_status := -5, ts_thdp := some 10, ts_datap := 0, ts_datalen := 0 }
    else { ts_status := 7, ts_thdp := none, ts_datap := 0, ts_datalen := 0 }
  _ns_thread := none
  flags := 0
  mem := fun a => if a = 0x20000000 then 99 else if a = 0x20000001 then 0 else 122

/-- The two checks of the loop of `tssiInit`: slot `i` is configured (its `arg`
is not `NULL`) and its `arg` or its priority makes `tssiInit` call `chSysHalt`. -/
def badSlot (cfg : Config) (ts_configs : Nat → thread_descriptor_t) (i : Nat) : Prop :=
  (ts_configs i).arg ≠ 0 ∧
    ((ts_configs i).arg ≠ TS_STATE cfg i ∨ (ts_configs i).prio ≤ cfg.NORMALPRIO ∨
      (ts_configs i).prio ≥ cfg.HIGHPRIO)

instance (cfg : Config) (ts_configs : Nat → thread_descriptor_t) (i : Nat) :
    Decidable (badSlot cfg ts_configs i) := by
  unfold badSlot
  infer_instance

/-! ## Auxiliary facts -/

/-- The address of slot 0 is the address of the table. -/
theorem TS_STATE_zero (cfg : Config) : TS_STATE cfg 0 = cfg.ts_state_addr := by
  simp [TS_STATE]

/-- The handles `isHndlValid` accepts are the addresses of the slots. -/
theorem isHndlValid_eq_true_iff (cfg : Config) (hsz : 0 < cfg.ts_state_size) (handle : Nat) :
    isHndlValid cfg handle = true ↔ ∃ i, i < cfg.TS_MAX_SVCS ∧ handle = TS_STATE cfg i := by
  unfold isHndlValid
  rw [TS_STATE_zero]
  constructor
  · intro h
    split at h
    · exact absurd h (by simp)
    · split at h
      · exact absurd h (by simp)
      · rename_i h1 h2
        have h3 : (handle - cfg.ts_state_addr) % cfg.ts_state_size = 0 := by
          simpa using h2
        have h4 : cfg.ts_state_addr ≤ handle := by omega
        have h5 : handle < TS_STATE cfg cfg.TS_MAX_SVCS := by omega
        obtain ⟨k, hk⟩ := Nat.dvd_of_mod_eq_zero h3
        refine ⟨k, ?_, ?_⟩
        · unfold TS_STATE at h5
          have h6 : k * cfg.ts_state_size < cfg.TS_MAX_SVCS * cfg.ts_state_size := by
            have : handle = cfg.ts_state_addr + k * cfg.ts_state_size := by
              rw [Nat.mul_comm k]; omega
            omega
          exact Nat.lt_of_mul_lt_mul_right h6
        · unfold TS_STATE
          rw [Nat.mul_comm k]; omega
  · rintro ⟨i, hi, rfl⟩
    have h1 : i * cfg.ts_state_size < cfg.TS_MAX_SVCS * cfg.ts_state_size :=
      Nat.mul_lt_mul_of_pos_right hi hsz
    have h2 : ¬ (TS_STATE cfg i < cfg.ts_state_addr ∨
        TS_STATE cfg i ≥ TS_STATE cfg cfg.TS_MAX_SVCS) := by
      unfold TS_STATE; omega
    rw [if_neg h2]
    have h3 : (TS_STATE cfg i - cfg.ts_state_addr) % cfg.ts_state_size = 0 := by
      unfold TS_STATE; simp
    simp [h3]

/-- Creating a thread does not stop the system. -/
theorem halts_cons_create (i : Nat) (l : List InitCall) :
    halts (InitCall.chThdCreate i :: l) = halts l := by
  simp [halts]

/-- The loop of `tssiInit` stops the system exactly when one of the slots it visits fails a check. -/
theorem tssiInitLoop_halts (cfg : Config) (ts_configs : Nat → thread_descriptor_t)
    (rest : List InitCall) (hrest : halts rest = false) (n : Nat) :
    ∀ i, halts (tssiInitLoop cfg ts_configs rest n i) = true ↔
      ∃ j, i ≤ j ∧ j < i + n ∧ badSlot cfg ts_configs j := by
  induction n with
  | zero =>
    intro i
    simp only [tssiInitLoop, hrest]
    constructor
    · intro h; exact absurd h (by simp)
    · rintro ⟨j, h1, h2, _⟩; omega
  | succ n ih =>
    intro i
    unfold tssiInitLoop
    by_cases h0 : (ts_configs i).arg = 0
    · rw [if_pos h0, ih (i + 1)]
      constructor
      · rintro ⟨j, h1, h2, h3⟩
        exact ⟨j, by omega, by omega, h3⟩
      · rintro ⟨j, h1, h2, h3⟩
        have hne : j ≠ i := by
          rintro rfl
          exact h3.1 h0
        exact ⟨j, by omega, by omega, h3⟩
    · rw [if_neg h0]
      by_cases h1 : (ts_configs i).arg ≠ TS_STATE cfg i
      · rw [if_pos h1]
        constructor
        · intro _
          exact ⟨i, Nat.le_refl i, by omega, h0, Or.inl h1⟩
        · intro _
          simp [halts]
      · rw [if_neg h1]
        by_cases h2 : (ts_configs i).prio ≤ cfg.NORMALPRIO ∨ (ts_configs i).prio ≥ cfg.HIGHPRIO
        · rw [if_pos h2]
          constructor
          · intro _
            exact ⟨i, Nat.le_refl i, by omega, h0, Or.inr h2⟩
          · intro _
            simp [halts]
        · rw [if_neg h2, halts_cons_create, ih (i + 1)]
          constructor
          · rintro ⟨j, h3, h4, h5⟩
            exact ⟨j, by omega, by omega, h5⟩
          · rintro ⟨j, h3, h4, h5⟩
            have hne : j ≠ i := by
              rintro rfl
              rcases h5.2 with h6 | h6
              · exact h1 h6
              · exact h2 h6
            exact ⟨j, by omega, by omega, h5⟩

/-- When no slot fails a check, the loop of `tssiInit` creates the threads of the configured slots, in order. -/
theorem tssiInitLoop_ok (cfg : Config) (ts_configs : Nat → thread_descriptor_t)
    (rest : List InitCall) (n : Nat) :
    ∀ i, (∀ j, i ≤ j → j < i + n → ¬ badSlot cfg ts_configs j) →
      tssiInitLoop cfg ts_configs rest n i =
        ((List.range' i n).filter fun j => decide ((ts_configs j).arg ≠ 0)).map
          InitCall.chThdCreate ++ rest := by
  induction n with
  | zero => intro i _; simp [tssiInitLoop]
  | succ n ih =>
    intro i hgood
    have hi := hgood i (Nat.le_refl i) (by omega)
    have hrec := ih (i + 1) (fun j h1 h2 => hgood j (by omega) (by omega))
    unfold tssiInitLoop
    rw [List.range'_succ]
    by_cases h0 : (ts_configs i).arg = 0
    · rw [if_pos h0, hrec]
      simp [List.filter_cons, h0]
    · have h1 : ¬ (ts_configs i).arg ≠ TS_STATE cfg i := fun h => hi ⟨h0, Or.inl h⟩
      have h2 : ¬ ((ts_configs i).prio ≤ cfg.NORMALPRIO ∨ (ts_configs i).prio ≥ cfg.HIGHPRIO) :=
        fun h => hi ⟨h0, Or.inr h⟩
      rw [if_neg h0, if_neg h1, if_neg h2, hrec]
      simp [List.filter_cons, h0]

/-- The difference of two pointers that are less than `2 ^ 31` apart, the larger first. -/
theorem ptrDiff_of_le (p q : Nat) (hq : q ≤ p) (hp : p < WORD) (hd : p - q < 2147483648) :
    ptrDiff p q = ((p - q : Nat) : Int) := by
  unfold ptrDiff toInt32 ptrSub WORD at *
  split_ifs <;> omega

/-- The macro `LOWORD` leaves a 32-bit word. -/
theorem LOWORD_lt (r : Int) : LOWORD r < WORD := by
  unfold LOWORD WORD
  omega

/-- The low word of a sign extended 32-bit word is that word. -/
theorem LOWORD_toInt32 (w : Nat) : LOWORD (toInt32 w) = w % WORD := by
  unfold LOWORD toInt32 WORD
  split_ifs <;> omega

/-- The low word of an `int32_t` value, read as a signed word, is that value. -/
theorem toInt32_LOWORD (r : Int) (h1 : -2147483648 ≤ r) (h2 : r < 2147483648) :
    toInt32 (LOWORD r) = r := by
  unfold LOWORD toInt32 WORD
  split_ifs <;> omega

/-- The packed value of `smcEntry`: a low word ORed with the shifted flags. -/
theorem pack_eq (a f : Nat) (ha : a < WORD) : a ||| (f <<< 32) = 4294967296 * f + a := by
  rw [Nat.shiftLeft_eq, Nat.lor_comm, Nat.mul_comm f]
  exact (Nat.mul_add_lt_is_or (by simpa [WORD] using ha) f).symm

/-- The low word of the packed value. -/
theorem pack_low (a f : Nat) (ha : a < WORD) : (a ||| (f <<< 32)) % 4294967296 = a := by
  rw [pack_eq a f ha]
  unfold WORD at ha
  omega

/-- The high word of the packed value. -/
theorem pack_high (a f : Nat) (ha : a < WORD) : (a ||| (f <<< 32)) / 4294967296 = f := by
  rw [pack_eq a f ha]
  unfold WORD at ha
  omega

/-- The byte before `NSEC_MEMORY_END_ADDR`, as a range of one byte, is rejected. -/
theorem isAddrSpaceValid_end (cfg : Config)
    (h1 : cfg.NSEC_MEMORY_START_ADDR < cfg.NSEC_MEMORY_END_ADDR)
    (h2 : cfg.NSEC_MEMORY_END_ADDR < 4294967296) :
    isAddrSpaceValid cfg (cfg.NSEC_MEMORY_END_ADDR - 1) 1 = false := by
  unfold isAddrSpaceValid
  have e1 : ptrAdd (cfg.NSEC_MEMORY_END_ADDR - 1) 1 = cfg.NSEC_MEMORY_END_ADDR := by
    unfold ptrAdd WORD; omega
  simp [e1]

/-- A range that starts inside the window and whose end wraps to the start of the window is accepted. -/
theorem isAddrSpaceValid_wrap (cfg : Config)
    (h1 : cfg.NSEC_MEMORY_START_ADDR + 1 < cfg.NSEC_MEMORY_END_ADDR)
    (h2 : cfg.NSEC_MEMORY_END_ADDR < 4294967296)
    (h3 : cfg.NSEC_MEMORY_END_ADDR - cfg.NSEC_MEMORY_START_ADDR < 2147483648) :
    isAddrSpaceValid cfg (cfg.NSEC_MEMORY_START_ADDR + 1) 4294967295 = true := by
  unfold isAddrSpaceValid
  have e1 : ptrAdd (cfg.NSEC_MEMORY_START_ADDR + 1) 4294967295 = cfg.NSEC_MEMORY_START_ADDR := by
    unfold ptrAdd WORD; omega
  rw [e1, ptrDiff_of_le _ _ (by omega) (by unfold WORD; omega) (by omega),
    ptrDiff_of_le _ _ (by omega) (by unfold WORD; omega) (by omega),
    ptrDiff_of_le _ _ (Nat.le_refl _) (by unfold WORD; omega) (by omega)]
  simp
  omega

/-- The differences that `isAddrSpaceValid` compares are signed: a range that
lies below the window, less than `2 ^ 31` bytes away from it, gives two negative
differences and is accepted, here the 4 bytes at `0x00200000` in the example
configuration. -/
theorem isAddrSpaceValid_accepts_below_window :
    isAddrSpaceValid exampleConfig 0x00200000 4 = true := by
  decide

/-- Stepping a pointer by one and then by `k`. -/
theorem ptrAdd_ptrAdd_one (p k : Nat) : ptrAdd (ptrAdd p 1) k = ptrAdd p (k + 1) := by
  unfold ptrAdd WORD
  omega

/-- Adding zero to a pointer. -/
theorem ptrAdd_zero (p : Nat) (hp : p < WORD) : ptrAdd p 0 = p := by
  unfold ptrAdd
  simpa using Nat.mod_eq_of_lt hp

/-- A pointer sum is a 32-bit word. -/
theorem ptrAdd_lt (p k : Nat) : ptrAdd p k < WORD := by
  unfold ptrAdd
  exact Nat.mod_lt _ (by unfold WORD; omega)

/-- The address of the last byte of a buffer that is not empty. -/
theorem ptrSub_ptrAdd_one (p len : Nat) (hlen : 0 < len) :
    ptrSub (ptrAdd p len) 1 = ptrAdd p (len - 1) := by
  unfold ptrSub ptrAdd WORD
  omega

/-- On a buffer that holds a terminator, `strcmp` finds a C string equal exactly when it is the string the buffer holds. -/
theorem strcmpEq_iff_bufferString (mem : Nat → Nat) :
    ∀ (len : Nat) (nm : List Nat) (p : Nat), p < WORD → (∀ c ∈ nm, c ≠ 0) →
      (∃ k, k < len ∧ mem (ptrAdd p k) = 0) →
      (strcmpEq mem nm p = true ↔ nm = bufferString mem len p) := by
  intro len
  induction len with
  | zero =>
    rintro nm p _ _ ⟨k, hk, _⟩
    omega
  | succ len ih =>
    intro nm p hp hnz hterm
    unfold bufferString
    by_cases h0 : mem p = 0
    · rw [if_pos h0]
      cases nm with
      | nil => simp [strcmpEq, h0]
      | cons c cs =>
        have hc : c ≠ 0 := hnz c (List.mem_cons_self c cs)
        have : ¬ (0 = c) := fun h => hc h.symm
        simp [strcmpEq, h0, this]
    · rw [if_neg h0]
      cases nm with
      | nil => simp [strcmpEq, h0]
      | cons c cs =>
        have hterm1 : ∃ k, k < len ∧ mem (ptrAdd (ptrAdd p 1) k) = 0 := by
          obtain ⟨k, hk, hz⟩ := hterm
          cases k with
          | zero =>
            rw [ptrAdd_zero p hp] at hz
            exact absurd hz h0
          | succ k =>
            exact ⟨k, by omega, by rw [ptrAdd_ptrAdd_one]; exact hz⟩
        have hrec := ih cs (ptrAdd p 1) (ptrAdd_lt p 1)
          (fun c hc => hnz c (List.mem_cons_of_mem _ hc)) hterm1
        simp only [strcmpEq, Bool.and_eq_true, beq_iff_eq, List.cons.injEq, hrec]
        constructor
        · rintro ⟨h1, h2⟩
          exact ⟨h1.symm, h2⟩
        · rintro ⟨h1, h2⟩
          exact ⟨h1.symm, h2⟩

/-- The loop of `findSvcsEntry` returns the `arg` of the first slot whose name compares equal. -/
theorem findSvcsEntryLoop_first (ts_configs : Nat → thread_descriptor_t) (mem : Nat → Nat)
    (name : Nat) (n : Nat) :
    ∀ i j nm, i ≤ j → j < i + n → (ts_configs j).name = some nm → strcmpEq mem nm name = true →
      (∀ k nm1, i ≤ k → k < j → (ts_configs k).name = some nm1 → strcmpEq mem nm1 name = false) →
      findSvcsEntryLoop ts_configs mem name n i = (ts_configs j).arg := by
  induction n with
  | zero => intro i j nm h1 h2; omega
  | succ n ih =>
    intro i j nm h1 h2 hname hcmp hfirst
    unfold findSvcsEntryLoop
    by_cases hij : j = i
    · subst hij
      simp [hname, hcmp]
    · have hrec := ih (i + 1) j nm (by omega) (by omega) hname hcmp
        (fun k nm1 hk1 hk2 => hfirst k nm1 (by omega) hk2)
      cases hn : (ts_configs i).name with
      | none => simpa using hrec
      | some nm1 =>
        have := hfirst i nm1 (Nat.le_refl i) (by omega) hn
        simpa [this] using hrec

/-- The loop of `findSvcsEntry` returns `NULL` when no name compares equal. -/
theorem findSvcsEntryLoop_none (ts_configs : Nat → thread_descriptor_t) (mem : Nat → Nat)
    (name : Nat) (n : Nat) :
    ∀ i, (∀ k nm1, i ≤ k → k < i + n → (ts_configs k).name = some nm1 →
        strcmpEq mem nm1 name = false) →
      findSvcsEntryLoop ts_configs mem name n i = 0 := by
  induction n with
  | zero => intro i _; rfl
  | succ n ih =>
    intro i hnone
    unfold findSvcsEntryLoop
    have hrec := ih (i + 1) (fun k nm1 hk1 hk2 => hnone k nm1 (by omega) (by omega))
    cases hn : (ts_configs i).name with
    | none => simpa using hrec
    | some nm1 =>
      have := hnone i nm1 (Nat.le_refl i) (by omega) hn
      simpa [this] using hrec

/-- The flags pending after a sequence of broadcasts. -/
theorem foldl_broadcast_flags (masks : List Nat) :
    ∀ s : State, (masks.foldl chEvtBroadcastFlags s).flags = masks.foldl (· ||| ·) s.flags := by
  induction masks with
  | nil => intro s; rfl
  | cons m ms ih => intro s; simp [List.foldl_cons, ih, chEvtBroadcastFlags]

/-- Broadcasting flags leaves `_ns_thread` alone. -/
theorem foldl_broadcast_ns_thread (masks : List Nat) :
    ∀ s : State, (masks.foldl chEvtBroadcastFlags s)._ns_thread = s._ns_thread := by
  induction masks with
  | nil => intro s; rfl
  | cons m ms ih => intro s; simp [List.foldl_cons, ih, chEvtBroadcastFlags]

/-- A call on the handle of an idle service, with an accepted buffer, stores the request, resumes the worker and suspends the caller. -/
theorem smcEntry_dispatch (cfg : Config) (ts_configs : Nat → thread_descriptor_t)
    (self : Nat) (s : State) (svc_handle svc_data svc_datalen svc_timeout w : Nat)
    (hq : svc_handle ≠ cfg.TS_HND_STQRY) (hi : svc_handle ≠ cfg.TS_HND_IDLE)
    (hv : svc_handle ≠ cfg.TS_HND_VERSION) (hd : svc_handle ≠ cfg.TS_HND_DISCOVERY)
    (h0 : svc_handle ≠ 0)
    (hbuf : isAddrSpaceValid cfg svc_data svc_datalen = true)
    (hhnd : isHndlValid cfg svc_handle = true)
    (hidle : (s.ts_state (slotIndex cfg svc_handle)).ts_thdp = some w) :
    smcEntry cfg ts_configs self s svc_handle svc_data svc_datalen svc_timeout =
      Outcome.suspended (some (w, cfg.MSG_OK)) (min svc_timeout cfg.TS_MAX_TMO)
        { s with
          ts_state := Function.update s.ts_state (slotIndex cfg svc_handle)
            { ts_status := (s.ts_state (slotIndex cfg svc_handle)).ts_status
              ts_thdp := none
              ts_datap := svc_data
              ts_datalen := svc_datalen }
          _ns_thread := some self } := by
  have hmin : (if svc_timeout > cfg.TS_MAX_TMO then cfg.TS_MAX_TMO else svc_timeout) =
      min svc_timeout cfg.TS_MAX_TMO := by
    split_ifs <;> omega
  simp only [smcEntry, smcEntryWait, hmin]
  simp [hq, hi, hv, hd, h0, hbuf, hhnd, hidle, chThdResume_ts_thdp, chThdSuspend_ns_thread]

/-- A call on `TS_HND_IDLE` suspends the caller and dispatches nothing. -/
theorem smcEntry_idle (cfg : Config) (ts_configs : Nat → thread_descriptor_t)
    (self : Nat) (s : State) (svc_data svc_datalen svc_timeout : Nat)
    (hq : cfg.TS_HND_IDLE ≠ cfg.TS_HND_STQRY) :
    smcEntry cfg ts_configs self s cfg.TS_HND_IDLE svc_data svc_datalen svc_timeout =
      Outcome.suspended none (min svc_timeout cfg.TS_MAX_TMO) { s with _ns_thread := some self } := by
  have hmin : (if svc_timeout > cfg.TS_MAX_TMO then cfg.TS_MAX_TMO else svc_timeout) =
      min svc_timeout cfg.TS_MAX_TMO := by
    split_ifs <;> omega
  simp only [smcEntry, smcEntryWait, hmin]
  simp [hq, chThdSuspend_ns_thread]

/-- The address before an address that is not zero. -/
theorem ptrSub_one (p : Nat) (h0 : 0 < p) (hp : p < WORD) : ptrSub p 1 = p - 1 := by
  unfold ptrSub WORD at *
  omega

/-! ## The properties of the engine -/

/-- C1, at its failing input: when the non secure window is not empty and ends
below `2 ^ 32`, the range of one byte that ends exactly at
`NSEC_MEMORY_END_ADDR` lies inside the window, and `isAddrSpaceValid` and its
wrapper `tsIsAddrSpaceValid` reject it: the end of the range is compared with
`<` where a range that lies inside the window needs `<=`. -/
theorem isAddrSpaceValid_rejects_range_ending_at_end (cfg : Config)
    (h1 : cfg.NSEC_MEMORY_START_ADDR < cfg.NSEC_MEMORY_END_ADDR)
    (h2 : cfg.NSEC_MEMORY_END_ADDR < 4294967296) :
    (cfg.NSEC_MEMORY_START_ADDR ≤ cfg.NSEC_MEMORY_END_ADDR - 1 ∧
        cfg.NSEC_MEMORY_END_ADDR - 1 + 1 ≤ cfg.NSEC_MEMORY_END_ADDR) ∧
      isAddrSpaceValid cfg (cfg.NSEC_MEMORY_END_ADDR - 1) 1 = false ∧
      tsIsAddrSpaceValid cfg (cfg.NSEC_MEMORY_END_ADDR - 1) 1 = false := by
  refine ⟨⟨by omega, by omega⟩, isAddrSpaceValid_end cfg h1 h2, ?_⟩
  unfold tsIsAddrSpaceValid
  exact isAddrSpaceValid_end cfg h1 h2

/-- The failing input of C1 in the example configuration: the last byte of the
window, address `0x26FFFFFF`, length 1. -/
theorem isAddrSpaceValid_rejects_range_ending_at_end_witness :
    isAddrSpaceValid exampleConfig 0x26FFFFFF 1 = false ∧
      tsIsAddrSpaceValid exampleConfig 0x26FFFFFF 1 = false :=
  (isAddrSpaceValid_rejects_range_ending_at_end exampleConfig (by decide) (by decide)).2

/-- C2, at its failing input: when the window holds two bytes at least, ends
below `2 ^ 32` and is less than `2 ^ 31` bytes long, the range that starts at
`NSEC_MEMORY_START_ADDR + 1` with the length `0xFFFFFFFF` runs past the end of
the 32-bit address space, its end wraps to `NSEC_MEMORY_START_ADDR`, and
`isAddrSpaceValid` accepts it. -/
theorem isAddrSpaceValid_accepts_wrapped_range (cfg : Config)
    (h1 : cfg.NSEC_MEMORY_START_ADDR + 1 < cfg.NSEC_MEMORY_END_ADDR)
    (h2 : cfg.NSEC_MEMORY_END_ADDR < 4294967296)
    (h3 : cfg.NSEC_MEMORY_END_ADDR - cfg.NSEC_MEMORY_START_ADDR < 2147483648) :
    4294967296 ≤ cfg.NSEC_MEMORY_START_ADDR + 1 + 4294967295 ∧
      ptrAdd (cfg.NSEC_MEMORY_START_ADDR + 1) 4294967295 = cfg.NSEC_MEMORY_START_ADDR ∧
      isAddrSpaceValid cfg (cfg.NSEC_MEMORY_START_ADDR + 1) 4294967295 = true := by
  refine ⟨by omega, ?_, isAddrSpaceValid_wrap cfg h1 h2 h3⟩
  unfold ptrAdd WORD
  omega

/-- The failing input of C2 in the example configuration: address `0x20000001`,
length `0xFFFFFFFF`. -/
theorem isAddrSpaceValid_accepts_wrapped_range_witness :
    isAddrSpaceValid exampleConfig 0x20000001 0xFFFFFFFF = true :=
  (isAddrSpaceValid_accepts_wrapped_range exampleConfig (by decide) (by decide)
    (by decide)).2.2

/-- C3: `isHndlValid` accepts a handle exactly when it is the address of one of
the `TS_MAX_SVCS` slots, `TS_STATE(0) + i * sizeof (ts_state_t)` with
`i < TS_MAX_SVCS`; an address below the table, an address at or past its end,
and an address at an offset that is not a multiple of the element size are
rejected. -/
theorem isHndlValid_accepts_exactly_slot_addresses (cfg : Config)
    (hsz : 0 < cfg.ts_state_size) (handle : Nat) :
    (isHndlValid cfg handle = true ↔
      ∃ i, i < cfg.TS_MAX_SVCS ∧ handle = TS_STATE cfg 0 + i * cfg.ts_state_size) ∧
    (handle < TS_STATE cfg 0 → isHndlValid cfg handle = false) ∧
    (TS_STATE cfg cfg.TS_MAX_SVCS ≤ handle → isHndlValid cfg handle = false) ∧
    ((handle - TS_STATE cfg 0) % cfg.ts_state_size ≠ 0 → isHndlValid cfg handle = false) := by
  refine ⟨?_, ?_, ?_, ?_⟩
  · rw [isHndlValid_eq_true_iff cfg hsz handle, TS_STATE_zero]
    rfl
  · intro h
    simp [isHndlValid, h]
  · intro h
    simp [isHndlValid, h]
  · intro h
    unfold isHndlValid
    split_ifs <;> rfl

/-- C3 in the example configuration: the address of slot 1 is accepted, and the
address one byte further is rejected. -/
theorem isHndlValid_accepts_exactly_slot_addresses_witness :
    isHndlValid exampleConfig 0x27000110 = true ∧ isHndlValid exampleConfig 0x27000111 = false :=
  ⟨(isHndlValid_accepts_exactly_slot_addresses exampleConfig (by decide) 0x27000110).1.2
      ⟨1, by decide, by decide⟩,
    (isHndlValid_accepts_exactly_slot_addresses exampleConfig (by decide) 0x27000111).2.2.2
      (by decide)⟩

/-- C4: a call of `smcEntry` on a handle that is none of the reserved ones
returns `SMC_SVC_INVALID` when `isAddrSpaceValid` rejects the buffer, otherwise
`SMC_SVC_BADH` when `isHndlValid` rejects the handle, otherwise `SMC_SVC_BUSY`
when `ts_thdp` of the slot is `NULL`; in the three cases it returns without
entering the wait path and the whole state (every slot, `_ns_thread`, the
pending flags, the memory) is as before the call. -/
theorem smcEntry_service_errors (cfg : Config) (ts_configs : Nat → thread_descriptor_t)
    (self : Nat) (s : State) (svc_handle svc_data svc_datalen svc_timeout : Nat)
    (hq : svc_handle ≠ cfg.TS_HND_STQRY) (hi : svc_handle ≠ cfg.TS_HND_IDLE)
    (hv : svc_handle ≠ cfg.TS_HND_VERSION) (hd : svc_handle ≠ cfg.TS_HND_DISCOVERY) :
    (isAddrSpaceValid cfg svc_data svc_datalen = false →
      smcEntry cfg ts_configs self s svc_handle svc_data svc_datalen svc_timeout =
        Outcome.returned (LOWORD cfg.SMC_SVC_INVALID) s) ∧
    (isAddrSpaceValid cfg svc_data svc_datalen = true → isHndlValid cfg svc_handle = false →
      smcEntry cfg ts_configs self s svc_handle svc_data svc_datalen svc_timeout =
        Outcome.returned (LOWORD cfg.SMC_SVC_BADH) s) ∧
    (isAddrSpaceValid cfg svc_data svc_datalen = true → isHndlValid cfg svc_handle = true →
      (s.ts_state (slotIndex cfg svc_handle)).ts_thdp = none →
      smcEntry cfg ts_configs self s svc_handle svc_data svc_datalen svc_timeout =
        Outcome.returned (LOWORD cfg.SMC_SVC_BUSY) s) := by
  refine ⟨?_, ?_, ?_⟩
  · intro h1
    simp [smcEntry, hq, hi, h1]
  · intro h1 h2
    simp [smcEntry, hq, hi, hv, hd, h1, h2]
  · intro h1 h2 h3
    simp [smcEntry, hq, hi, hv, hd, h1, h2, h3]

/-- C4 in the example configuration: a buffer outside the window, a handle
inside a slot, and the handle of the busy slot 2. -/
theorem smcEntry_service_errors_witness :
    smcEntry exampleConfig exampleTable 1 exampleState 0x27000100 0x27000000 1 0 =
        Outcome.returned (LOWORD exampleConfig.SMC_SVC_INVALID) exampleState ∧
      smcEntry exampleConfig exampleTable 1 exampleState 0x27000101 0x20000000 16 0 =
        Outcome.returned (LOWORD exampleConfig.SMC_SVC_BADH) exampleState ∧
      smcEntry exampleConfig exampleTable 1 exampleState 0x27000120 0x20000000 16 0 =
        Outcome.returned (LOWORD exampleConfig.SMC_SVC_BUSY) exampleState :=
  ⟨(smcEntry_service_errors exampleConfig exampleTable 1 exampleState 0x27000100 0x27000000 1 0
      (by decide) (by decide) (by decide) (by decide)).1 (by decide),
    (smcEntry_service_errors exampleConfig exampleTable 1 exampleState 0x27000101 0x20000000 16 0
      (by decide) (by decide) (by decide) (by decide)).2.1 (by decide) (by decide),
    (smcEntry_service_errors exampleConfig exampleTable 1 exampleState 0x27000120 0x20000000 16 0
      (by decide) (by decide) (by decide) (by decide)).2.2 (by decide) (by decide) (by decide)⟩

/-- C5 as stated fails: in the example configuration a call on `TS_HND_VERSION`
with the buffer of one byte at `NSEC_MEMORY_END_ADDR` returns `SMC_SVC_INVALID`,
which is not `TSSI_VERSION`, while the same call with an empty buffer returns
`TSSI_VERSION`: the result depends on the request buffer. -/
theorem smcEntry_version_depends_on_buffer :
    (smcEntry exampleConfig exampleTable 1 exampleState exampleConfig.TS_HND_VERSION
        0x27000000 1 0).value? = some (LOWORD exampleConfig.SMC_SVC_INVALID) ∧
      LOWORD exampleConfig.SMC_SVC_INVALID ≠ LOWORD exampleConfig.TSSI_VERSION ∧
      (smcEntry exampleConfig exampleTable 1 exampleState exampleConfig.TS_HND_VERSION
        0x27000000 0 0).value? = some (LOWORD exampleConfig.TSSI_VERSION) := by
  decide

/-- C5, amended: for every timeout, and every request buffer that
`isAddrSpaceValid` accepts (every empty buffer is one), a call of `smcEntry` on
`TS_HND_VERSION` returns `TSSI_VERSION` in the low word without entering the
wait path and leaves the state as it was; when `isAddrSpaceValid` rejects the
buffer the call returns `SMC_SVC_INVALID` instead.  The reserved handles are
distinct. -/
theorem smcEntry_version (cfg : Config) (ts_configs : Nat → thread_descriptor_t)
    (self : Nat) (s : State) (svc_data svc_datalen svc_timeout : Nat)
    (hq : cfg.TS_HND_VERSION ≠ cfg.TS_HND_STQRY) (hi : cfg.TS_HND_VERSION ≠ cfg.TS_HND_IDLE) :
    (isAddrSpaceValid cfg svc_data svc_datalen = true →
      smcEntry cfg ts_configs self s cfg.TS_HND_VERSION svc_data svc_datalen svc_timeout =
        Outcome.returned (LOWORD cfg.TSSI_VERSION) s) ∧
    (isAddrSpaceValid cfg svc_data svc_datalen = false →
      smcEntry cfg ts_configs self s cfg.TS_HND_VERSION svc_data svc_datalen svc_timeout =
        Outcome.returned (LOWORD cfg.SMC_SVC_INVALID) s) := by
  refine ⟨?_, ?_⟩
  · intro h1
    simp [smcEntry, hq, hi, h1]
  · intro h1
    simp [smcEntry, hq, hi, h1]

/-- C5, amended, in the example configuration: an accepted buffer, timeout 0. -/
theorem smcEntry_version_witness :
    smcEntry exampleConfig exampleTable 1 exampleState exampleConfig.TS_HND_VERSION
        0x20000000 16 0 =
      Outcome.returned (LOWORD exampleConfig.TSSI_VERSION) exampleState :=
  (smcEntry_version exampleConfig exampleTable 1 exampleState 0x20000000 16 0
    (by decide) (by decide)).1 (by decide)

/-- C6 as stated fails, in the example configuration.  A call on
`TS_HND_DISCOVERY` with the buffer of two bytes at `NSEC_MEMORY_END_ADDR`, the
name in which (`"z"`) is the name of no slot, returns `SMC_SVC_INVALID` and not
`SMC_SVC_NOENT`.  And with the second example table, which `tssiInit` accepts,
the name `"c"` is first the name of slot 1, whose `arg` is `NULL`: the call
returns `SMC_SVC_NOENT` and not the handle of slot 1. -/
theorem smcEntry_discovery_fails_as_stated :
    ((∀ i, i < exampleConfig.TS_MAX_SVCS → (exampleTable i).name ≠
        some (bufferString (Function.update exampleState.mem 0x27000001 0) 2 0x27000000)) ∧
      (smcEntry exampleConfig exampleTable 1 exampleState exampleConfig.TS_HND_DISCOVERY
        0x27000000 2 0).value? = some (LOWORD exampleConfig.SMC_SVC_INVALID) ∧
      LOWORD exampleConfig.SMC_SVC_INVALID ≠ LOWORD exampleConfig.SMC_SVC_NOENT) ∧
    (halts (tssiInit exampleConfig exampleTableUnbound) = false ∧
      isAddrSpaceValid exampleConfig 0x20000000 8 = true ∧
      (exampleTableUnbound 1).name =
        some (bufferString (Function.update exampleState.mem 0x20000007 0) 8 0x20000000) ∧
      (exampleTableUnbound 0).name ≠
        some (bufferString (Function.update exampleState.mem 0x20000007 0) 8 0x20000000) ∧
      (smcEntry exampleConfig exampleTableUnbound 1 exampleState exampleConfig.TS_HND_DISCOVERY
        0x20000000 8 0).value? = some (LOWORD exampleConfig.SMC_SVC_NOENT) ∧
      LOWORD exampleConfig.SMC_SVC_NOENT ≠ TS_STATE exampleConfig 1) := by
  decide

/-- C6, amended: take a table whose names are C strings and whose `arg`
pointers are 32-bit words, and a call of `smcEntry` on `TS_HND_DISCOVERY`.
When `isAddrSpaceValid` rejects the buffer the result is `SMC_SVC_INVALID`, and
when the length is 0 it is `SMC_SVC_NOENT`, the state unchanged in both cases.
Otherwise the last byte of the buffer is set to 0 and, with `name` the string
the buffer then holds: if `name` is the name of some slot, the result is the
`arg` pointer of the first such slot in table order, which is the handle
`TS_STATE(i)` of the slot when the table is set as `tssiInit` requires, and
`SMC_SVC_NOENT` when that `arg` is `NULL`; if `name` is the name of no slot,
the result is `SMC_SVC_NOENT`.  The call never enters the wait path.  The
reserved handles are distinct. -/
theorem smcEntry_discovery (cfg : Config) (ts_configs : Nat → thread_descriptor_t)
    (self : Nat) (s : State) (svc_data svc_datalen svc_timeout : Nat)
    (hq : cfg.TS_HND_DISCOVERY ≠ cfg.TS_HND_STQRY)
    (hi : cfg.TS_HND_DISCOVERY ≠ cfg.TS_HND_IDLE)
    (hv : cfg.TS_HND_DISCOVERY ≠ cfg.TS_HND_VERSION)
    (hnames : ∀ i nm, i < cfg.TS_MAX_SVCS → (ts_configs i).name = some nm → ∀ c ∈ nm, c ≠ 0)
    (hargs : ∀ i, i < cfg.TS_MAX_SVCS → (ts_configs i).arg < 4294967296)
    (hdata : svc_data < 4294967296) :
    (isAddrSpaceValid cfg svc_data svc_datalen = false →
      smcEntry cfg ts_configs self s cfg.TS_HND_DISCOVERY svc_data svc_datalen svc_timeout =
        Outcome.returned (LOWORD cfg.SMC_SVC_INVALID) s) ∧
    (svc_datalen = 0 →
      smcEntry cfg ts_configs self s cfg.TS_HND_DISCOVERY svc_data svc_datalen svc_timeout =
        Outcome.returned (LOWORD cfg.SMC_SVC_NOENT) s) ∧
    (isAddrSpaceValid cfg svc_data svc_datalen = true → svc_datalen ≠ 0 →
      ∀ s1 name,
        s1 = { s with mem := Function.update s.mem (ptrSub (ptrAdd svc_data svc_datalen) 1) 0 } →
        name = bufferString s1.mem svc_datalen svc_data →
        (∀ i, i < cfg.TS_MAX_SVCS → (ts_configs i).name = some name →
          (∀ j, j < i → (ts_configs j).name ≠ some name) →
          ((ts_configs i).arg ≠ 0 →
            smcEntry cfg ts_configs self s cfg.TS_HND_DISCOVERY svc_data svc_datalen
              svc_timeout = Outcome.returned (ts_configs i).arg s1) ∧
          ((ts_configs i).arg = TS_STATE cfg i → TS_STATE cfg i ≠ 0 →
            smcEntry cfg ts_configs self s cfg.TS_HND_DISCOVERY svc_data svc_datalen
              svc_timeout = Outcome.returned (TS_STATE cfg i) s1) ∧
          ((ts_configs i).arg = 0 →
            smcEntry cfg ts_configs self s cfg.TS_HND_DISCOVERY svc_data svc_datalen
              svc_timeout = Outcome.returned (LOWORD cfg.SMC_SVC_NOENT) s1)) ∧
        ((∀ i, i < cfg.TS_MAX_SVCS → (ts_configs i).name ≠ some name) →
          smcEntry cfg ts_configs self s cfg.TS_HND_DISCOVERY svc_data svc_datalen
            svc_timeout = Outcome.returned (LOWORD cfg.SMC_SVC_NOENT) s1)) := by
  refine ⟨?_, ?_, ?_⟩
  · intro h1
    simp [smcEntry, hq, hi, h1]
  · intro h1
    subst h1
    simp [smcEntry, hq, hi, hv, isAddrSpaceValid]
  · intro h1 h2 s1 name hs1 hname
    have hpos : 0 < svc_datalen := Nat.pos_of_ne_zero h2
    have hterm : ∃ k, k < svc_datalen ∧ s1.mem (ptrAdd svc_data k) = 0 := by
      refine ⟨svc_datalen - 1, by omega, ?_⟩
      rw [hs1, ptrSub_ptrAdd_one svc_data svc_datalen hpos]
      simp
    have hcmp : ∀ i nm, i < cfg.TS_MAX_SVCS → (ts_configs i).name = some nm →
        (strcmpEq s1.mem nm svc_data = true ↔ nm = name) := by
      intro i nm hlt hnm
      rw [hname]
      exact strcmpEq_iff_bufferString s1.mem svc_datalen nm svc_data
        (by unfold WORD; exact hdata) (hnames i nm hlt hnm) hterm
    have hstep : smcEntry cfg ts_configs self s cfg.TS_HND_DISCOVERY svc_data svc_datalen
        svc_timeout =
        (if findSvcsEntry cfg ts_configs s1.mem svc_data = 0 then
          Outcome.returned (LOWORD cfg.SMC_SVC_NOENT) s1
        else Outcome.returned (LOWORD (toInt32 (findSvcsEntry cfg ts_configs s1.mem svc_data)))
          s1) := by
      simp [smcEntry, hq, hi, hv, h1, h2, hs1]
    refine ⟨?_, ?_⟩
    · intro i hlt hnm hfirst
      have hfind : findSvcsEntry cfg ts_configs s1.mem svc_data = (ts_configs i).arg := by
        unfold findSvcsEntry
        refine findSvcsEntryLoop_first ts_configs s1.mem svc_data cfg.TS_MAX_SVCS 0 i name
          (Nat.zero_le i) (by omega) hnm ((hcmp i name hlt hnm).2 rfl) ?_
        intro k nm1 _ hk hnm1
        by_contra hne
        have : nm1 = name := (hcmp k nm1 (by omega) hnm1).1 (by simpa using hne)
        exact hfirst k hk (by rw [hnm1, this])
      rw [hstep, hfind]
      have hret : (ts_configs i).arg ≠ 0 →
          (if (ts_configs i).arg = 0 then Outcome.returned (LOWORD cfg.SMC_SVC_NOENT) s1
            else Outcome.returned (LOWORD (toInt32 (ts_configs i).arg)) s1) =
          Outcome.returned (ts_configs i).arg s1 := by
        intro hne
        rw [if_neg hne, LOWORD_toInt32]
        have := hargs i hlt
        rw [Nat.mod_eq_of_lt (by unfold WORD; exact this)]
      refine ⟨hret, ?_, ?_⟩
      · intro he hne
        rw [hret (by rw [he]; exact hne), he]
      · intro he
        rw [if_pos he]
    · intro hnone
      have hfind : findSvcsEntry cfg ts_configs s1.mem svc_data = 0 := by
        unfold findSvcsEntry
        refine findSvcsEntryLoop_none ts_configs s1.mem svc_data cfg.TS_MAX_SVCS 0 ?_
        intro k nm1 _ hk hnm1
        by_contra hne
        have : nm1 = name := (hcmp k nm1 (by omega) hnm1).1 (by simpa using hne)
        exact hnone k (by omega) (by rw [hnm1, this])
      rw [hstep, hfind, if_pos rfl]

/-- C6, amended, in the example configuration: the buffer of 8 bytes at
`0x20000000` holds `"c"`, the name of slot 2, and the call returns the handle
of slot 2. -/
theorem smcEntry_discovery_witness :
    smcEntry exampleConfig exampleTable 1 exampleState exampleConfig.TS_HND_DISCOVERY
        0x20000000 8 0 =
      Outcome.returned (TS_STATE exampleConfig 2)
        { exampleState with
          mem := Function.update exampleState.mem (ptrSub (ptrAdd 0x20000000 8) 1) 0 } :=
  ((((smcEntry_discovery exampleConfig exampleTable 1 exampleState 0x20000000 8 0
    (by decide) (by decide) (by decide)
    (by
      intro i nm hi hnm
      have hi4 : i < 4 := hi
      interval_cases i <;> simp [exampleTable] at hnm <;> subst hnm <;> simp)
    (by
      intro i hi
      have hi4 : i < 4 := hi
      interval_cases i <;> simp [exampleTable])
    (by decide)).2.2 (by decide) (by decide) _ _ rfl rfl).1 2 (by decide) (by decide)
    (by decide)).2.1 (by decide) (by decide))

/-- C7: a call of `smcEntry` on `TS_HND_STQRY`, with `svc_data` the handle to
query, whatever the timeout: returns `SMC_SVC_BADH` when `isHndlValid` rejects
the handle; when the handle is valid and `ts_thdp` of its slot is not `NULL`,
returns `ts_status` of the slot in the low word with a zero high word, without
entering the wait path and with the state unchanged; when the handle is valid
and `ts_thdp` of its slot is `NULL`, enters the wait path with no service
dispatched: no worker is resumed, no slot changes, and the caller is suspended
on `_ns_thread`. -/
theorem smcEntry_query (cfg : Config) (ts_configs : Nat → thread_descriptor_t)
    (self : Nat) (s : State) (svc_data svc_datalen svc_timeout : Nat) :
    (isHndlValid cfg svc_data = false →
      smcEntry cfg ts_configs self s cfg.TS_HND_STQRY svc_data svc_datalen svc_timeout =
        Outcome.returned (LOWORD cfg.SMC_SVC_BADH) s) ∧
    (isHndlValid cfg svc_data = true →
      (s.ts_state (slotIndex cfg svc_data)).ts_thdp ≠ none →
      smcEntry cfg ts_configs self s cfg.TS_HND_STQRY svc_data svc_datalen svc_timeout =
          Outcome.returned (LOWORD (s.ts_state (slotIndex cfg svc_data)).ts_status) s ∧
        LOWORD (s.ts_state (slotIndex cfg svc_data)).ts_status / 4294967296 = 0) ∧
    (isHndlValid cfg svc_data = true →
      (s.ts_state (slotIndex cfg svc_data)).ts_thdp = none →
      smcEntry cfg ts_configs self s cfg.TS_HND_STQRY svc_data svc_datalen svc_timeout =
        Outcome.suspended none (min svc_timeout cfg.TS_MAX_TMO)
          { s with _ns_thread := some self }) := by
  refine ⟨?_, ?_, ?_⟩
  · intro h1
    simp [smcEntry, h1]
  · intro h1 h2
    refine ⟨?_, ?_⟩
    · simp [smcEntry, h1, h2]
    · have := LOWORD_lt (s.ts_state (slotIndex cfg svc_data)).ts_status
      unfold WORD at this
      omega
  · intro h1 h2
    simp only [smcEntry, h1, h2, smcEntryWait, chThdSuspend_ns_thread]
    simp
    split_ifs <;> omega

/-- C7 in the example configuration: a handle that is no slot, the idle slot 0
and the busy slot 2. -/
theorem smcEntry_query_witness :
    smcEntry exampleConfig exampleTable 1 exampleState exampleConfig.TS_HND_STQRY
        0x27000101 0 0 =
        Outcome.returned (LOWORD exampleConfig.SMC_SVC_BADH) exampleState ∧
      smcEntry exampleConfig exampleTable 1 exampleState exampleConfig.TS_HND_STQRY
        0x27000100 0 0 =
        Outcome.returned
          (LOWORD (exampleState.ts_state (slotIndex exampleConfig 0x27000100)).ts_status)
          exampleState ∧
      smcEntry exampleConfig exampleTable 1 exampleState exampleConfig.TS_HND_STQRY
        0x27000120 0 20000 =
        Outcome.suspended none (min 20000 exampleConfig.TS_MAX_TMO)
          { exampleState with _ns_thread := some 1 } :=
  ⟨(smcEntry_query exampleConfig exampleTable 1 exampleState 0x27000101 0 0).1 (by decide),
    ((smcEntry_query exampleConfig exampleTable 1 exampleState 0x27000100 0 0).2.1 (by decide)
      (by decide)).1,
    (smcEntry_query exampleConfig exampleTable 1 exampleState 0x27000120 0 20000).2.2 (by decide)
      (by decide)⟩

/-- C8: take a state in which the slot of the handle `svc_handle` is idle
(`ts_thdp` refers to the worker `w`) and no caller is pending, and a buffer
that `isAddrSpaceValid` accepts.  The call of `smcEntry` stores the buffer in
the slot, resumes `w` with `MSG_OK`, which leaves `ts_thdp` `NULL`, and suspends
the caller in `_ns_thread`, with the other slots unchanged.  When the worker,
after publishing the event masks `masks` and with the status `st` in
`ts_status`, calls `tssiWaitRequest`, the caller is woken with `st`,
`_ns_thread` is cleared and `ts_thdp` refers to `w` again.  The value `v` that
`smcEntry` then returns has `st` in its low 32 bits, as a two's complement
value, and in its high 32 bits the OR of the flags pending at the call and of
the masks published since; the pending flags are empty afterwards, and a wait
that follows at once (a call on `TS_HND_IDLE`) returns a zero high word. -/
theorem smcEntry_rendezvous (cfg : Config) (ts_configs : Nat → thread_descriptor_t)
    (self : Nat) (s : State) (svc_handle svc_data svc_datalen svc_timeout w : Nat)
    (st : Int) (masks : List Nat)
    (hq : svc_handle ≠ cfg.TS_HND_STQRY) (hi : svc_handle ≠ cfg.TS_HND_IDLE)
    (hv : svc_handle ≠ cfg.TS_HND_VERSION) (hd : svc_handle ≠ cfg.TS_HND_DISCOVERY)
    (hiq : cfg.TS_HND_IDLE ≠ cfg.TS_HND_STQRY)
    (h0 : svc_handle ≠ 0)
    (hbuf : isAddrSpaceValid cfg svc_data svc_datalen = true)
    (hhnd : isHndlValid cfg svc_handle = true)
    (hidle : (s.ts_state (slotIndex cfg svc_handle)).ts_thdp = some w)
    (_hns : s._ns_thread = none)
    (hst1 : -2147483648 ≤ st) (hst2 : st < 2147483648)
    (s1 s2 s3 s4 : State) (v : Nat)
    (e1 : s1 = (smcEntry cfg ts_configs self s svc_handle svc_data svc_datalen svc_timeout).state)
    (e2 : s2 = workerProcess s1 (slotIndex cfg svc_handle) st masks)
    (e3 : s3 = (tssiWaitRequest cfg w s2 svc_handle).2)
    (e4 : (v, s4) = smcEntryWake s3 st) :
    smcEntry cfg ts_configs self s svc_handle svc_data svc_datalen svc_timeout =
        Outcome.suspended (some (w, cfg.MSG_OK)) (min svc_timeout cfg.TS_MAX_TMO) s1 ∧
      s1.ts_state (slotIndex cfg svc_handle) =
        { ts_status := (s.ts_state (slotIndex cfg svc_handle)).ts_status
          ts_thdp := none
          ts_datap := svc_data
          ts_datalen := svc_datalen } ∧
      (∀ j, j ≠ slotIndex cfg svc_handle → s1.ts_state j = s.ts_state j) ∧
      s1._ns_thread = some self ∧
      (tssiWaitRequest cfg w s2 svc_handle).1 = some (self, st) ∧
      s3._ns_thread = none ∧
      (s3.ts_state (slotIndex cfg svc_handle)).ts_thdp = some w ∧
      toInt32 (v % 4294967296) = st ∧
      v / 4294967296 = masks.foldl (· ||| ·) s.flags ∧
      s4.flags = 0 ∧
      ∀ self1 data1 len1 tmo1 r1,
        smcEntry cfg ts_configs self1 s4 cfg.TS_HND_IDLE data1 len1 tmo1 =
          Outcome.suspended none (min tmo1 cfg.TS_MAX_TMO) { s4 with _ns_thread := some self1 } ∧
        (smcEntryWake { s4 with _ns_thread := some self1 } r1).1 / 4294967296 = 0 := by
  have hdisp := smcEntry_dispatch cfg ts_configs self s svc_handle svc_data svc_datalen
    svc_timeout w hq hi hv hd h0 hbuf hhnd hidle
  rw [hdisp] at e1 ⊢
  simp only [Outcome.state] at e1
  have hv4 : v = (smcEntryWake s3 st).1 := by rw [← e4]
  have hs4 : s4 = (smcEntryWake s3 st).2 := by rw [← e4]
  have hs2ns : s2._ns_thread = some self := by
    rw [e2, e1]
    simp [workerProcess, foldl_broadcast_ns_thread]
  have hs2st : (s2.ts_state (slotIndex cfg svc_handle)).ts_status = st := by
    rw [e2]
    simp [workerProcess]
  have hs2fl : s2.flags = masks.foldl (· ||| ·) s.flags := by
    rw [e2, e1]
    simp [workerProcess, foldl_broadcast_flags]
  have hs3fl : s3.flags = masks.foldl (· ||| ·) s.flags := by
    rw [e3, ← hs2fl]
    simp [tssiWaitRequest, hs2ns, chThdResume_ns_thread, chThdSuspend_ts_thdp]
  refine ⟨by rw [e1], ?_, ?_, ?_, ?_, ?_, ?_, ?_, ?_, ?_, ?_⟩
  · rw [e1]; simp
  · intro j hj
    rw [e1]
    simp [Function.update, hj]
  · rw [e1]
  · simp [tssiWaitRequest, hs2ns, hs2st, chThdResume_ns_thread]
  · rw [e3]
    simp [tssiWaitRequest, hs2ns, chThdResume_ns_thread, chThdSuspend_ts_thdp]
  · rw [e3]
    simp [tssiWaitRequest, chThdSuspend_ts_thdp]
  · rw [hv4]
    simp only [smcEntryWake]
    rw [pack_low _ _ (LOWORD_lt st), toInt32_LOWORD st hst1 hst2]
  · rw [hv4]
    simp only [smcEntryWake]
    rw [pack_high _ _ (LOWORD_lt st)]
    simp [chEvtGetAndClearFlagsI, hs3fl]
  · rw [hs4]
    simp [smcEntryWake, chEvtGetAndClearFlagsI]
  · intro self1 data1 len1 tmo1 r1
    refine ⟨smcEntry_idle cfg ts_configs self1 _ data1 len1 tmo1 hiq, ?_⟩
    simp only [smcEntryWake]
    rw [pack_high _ _ (LOWORD_lt r1), hs4]
    simp [smcEntryWake, chEvtGetAndClearFlagsI]

/-- C8 in the example configuration: a request to slot 0, whose worker
publishes the masks 1 and 4 and ends with the status -3. -/
theorem smcEntry_rendezvous_witness :
    toInt32 ((smcEntryWake (tssiWaitRequest exampleConfig 10
        (workerProcess
          (smcEntry exampleConfig exampleTable 1 exampleState 0x27000100 0x20000000 16 5).state
          (slotIndex exampleConfig 0x27000100) (-3) [1, 4]) 0x27000100).2 (-3)).1 %
        4294967296) = -3 ∧
      (smcEntryWake (tssiWaitRequest exampleConfig 10
        (workerProcess
          (smcEntry exampleConfig exampleTable 1 exampleState 0x27000100 0x20000000 16 5).state
          (slotIndex exampleConfig 0x27000100) (-3) [1, 4]) 0x27000100).2 (-3)).1 /
        4294967296 = [1, 4].foldl (· ||| ·) exampleState.flags :=
  have h := smcEntry_rendezvous exampleConfig exampleTable 1 exampleState 0x27000100 0x20000000
    16 5 10 (-3) [1, 4] (by decide) (by decide) (by decide) (by decide) (by decide) (by decide)
    (by decide) (by decide) (by decide) (by decide) (by decide) (by decide)
    _ _ _ _ _ rfl rfl rfl rfl
  ⟨h.2.2.2.2.2.2.2.1, h.2.2.2.2.2.2.2.2.1⟩

/-- C9: the loop of `tssiInit` over the services calls `chSysHalt` exactly when
some slot `i < TS_MAX_SVCS` whose `arg` is not `NULL` has an `arg` different
from `TS_STATE(i)`, or a priority `<= NORMALPRIO` or `>= HIGHPRIO`; when no
configured slot fails a check, `tssiInit` creates one thread for each
configured slot, in table order, and none for the others, then registers to
the events and only then raises its priority to `HIGHPRIO`. -/
theorem tssiInit_halts_iff (cfg : Config) (ts_configs : Nat → thread_descriptor_t) :
    (halts (tssiInit cfg ts_configs) = true ↔
      ∃ i, i < cfg.TS_MAX_SVCS ∧ (ts_configs i).arg ≠ 0 ∧
        ((ts_configs i).arg ≠ TS_STATE cfg i ∨ (ts_configs i).prio ≤ cfg.NORMALPRIO ∨
          (ts_configs i).prio ≥ cfg.HIGHPRIO)) ∧
    ((∀ i, i < cfg.TS_MAX_SVCS → (ts_configs i).arg ≠ 0 →
        (ts_configs i).arg = TS_STATE cfg i ∧ cfg.NORMALPRIO < (ts_configs i).prio ∧
          (ts_configs i).prio < cfg.HIGHPRIO) →
      tssiInit cfg ts_configs =
        InitCall.chThdSetPriority cfg.NORMALPRIO ::
          (((List.range cfg.TS_MAX_SVCS).filter fun i => decide ((ts_configs i).arg ≠ 0)).map
              InitCall.chThdCreate ++
            [InitCall.chEvtRegister, InitCall.chThdSetPriority cfg.HIGHPRIO])) := by
  refine ⟨?_, ?_⟩
  · unfold tssiInit
    have hcons : ∀ l, halts (InitCall.chThdSetPriority cfg.NORMALPRIO :: l) = halts l := by
      intro l; simp [halts]
    rw [hcons, tssiInitLoop_halts cfg ts_configs _ (by simp [halts]) cfg.TS_MAX_SVCS 0]
    constructor
    · rintro ⟨j, _, h2, h3⟩
      exact ⟨j, by omega, h3.1, h3.2⟩
    · rintro ⟨j, h1, h2, h3⟩
      exact ⟨j, Nat.zero_le j, by omega, h2, h3⟩
  · intro hgood
    unfold tssiInit
    rw [tssiInitLoop_ok cfg ts_configs _ cfg.TS_MAX_SVCS 0, List.range_eq_range']
    intro j _ hj hbad
    obtain ⟨h1, h2, h3⟩ := hgood j (by omega) hbad.1
    rcases hbad.2 with h | h | h
    · exact h h1
    · omega
    · omega

/-- C9 in the example configuration: the two services of the example table
pass the checks and their threads are created in order. -/
theorem tssiInit_halts_iff_witness :
    tssiInit exampleConfig exampleTable =
      InitCall.chThdSetPriority exampleConfig.NORMALPRIO ::
        (((List.range exampleConfig.TS_MAX_SVCS).filter
              fun i => decide ((exampleTable i).arg ≠ 0)).map InitCall.chThdCreate ++
          [InitCall.chEvtRegister, InitCall.chThdSetPriority exampleConfig.HIGHPRIO]) :=
  (tssiInit_halts_iff exampleConfig exampleTable).2 (by decide)

/-- C10, at its failing input: when the window starts above address 0, holds
two bytes at least, ends below `2 ^ 32` and is less than `2 ^ 31` bytes long,
a call on `TS_HND_DISCOVERY` with the buffer that starts at
`NSEC_MEMORY_START_ADDR + 1` and has the length `0xFFFFFFFF` is accepted by
`isAddrSpaceValid`, and the terminator is written at
`NSEC_MEMORY_START_ADDR - 1`, an address below the window. -/
theorem smcEntry_discovery_writes_below_window (cfg : Config)
    (ts_configs : Nat → thread_descriptor_t) (self : Nat) (s : State) (svc_timeout : Nat)
    (hq : cfg.TS_HND_DISCOVERY ≠ cfg.TS_HND_STQRY)
    (hi : cfg.TS_HND_DISCOVERY ≠ cfg.TS_HND_IDLE)
    (hv : cfg.TS_HND_DISCOVERY ≠ cfg.TS_HND_VERSION)
    (h0 : 0 < cfg.NSEC_MEMORY_START_ADDR)
    (h1 : cfg.NSEC_MEMORY_START_ADDR + 1 < cfg.NSEC_MEMORY_END_ADDR)
    (h2 : cfg.NSEC_MEMORY_END_ADDR < 4294967296)
    (h3 : cfg.NSEC_MEMORY_END_ADDR - cfg.NSEC_MEMORY_START_ADDR < 2147483648) :
    isAddrSpaceValid cfg (cfg.NSEC_MEMORY_START_ADDR + 1) 4294967295 = true ∧
      (smcEntry cfg ts_configs self s cfg.TS_HND_DISCOVERY (cfg.NSEC_MEMORY_START_ADDR + 1)
          4294967295 svc_timeout).state.mem =
        Function.update s.mem (cfg.NSEC_MEMORY_START_ADDR - 1) 0 ∧
      cfg.NSEC_MEMORY_START_ADDR - 1 < cfg.NSEC_MEMORY_START_ADDR := by
  have hval := isAddrSpaceValid_wrap cfg h1 h2 h3
  have e1 : ptrAdd (cfg.NSEC_MEMORY_START_ADDR + 1) 4294967295 = cfg.NSEC_MEMORY_START_ADDR := by
    unfold ptrAdd WORD; omega
  have e2 : ptrSub cfg.NSEC_MEMORY_START_ADDR 1 = cfg.NSEC_MEMORY_START_ADDR - 1 :=
    ptrSub_one _ h0 (by unfold WORD; omega)
  refine ⟨hval, ?_, by omega⟩
  simp [smcEntry, hq, hi, hv, hval, e1, e2]
  split_ifs <;> rfl

/-- The failing input of C10 in the example configuration: the byte at
`0x1FFFFFFF`, below the window, is set to 0. -/
theorem smcEntry_discovery_writes_below_window_witness :
    (smcEntry exampleConfig exampleTable 1 exampleState exampleConfig.TS_HND_DISCOVERY
        (exampleConfig.NSEC_MEMORY_START_ADDR + 1) 4294967295 0).state.mem =
      Function.update exampleState.mem (exampleConfig.NSEC_MEMORY_START_ADDR - 1) 0 :=
  (smcEntry_discovery_writes_below_window exampleConfig exampleTable 1 exampleState 0
    (by decide) (by decide) (by decide) (by decide) (by decide) (by decide) (by decide)).2.1

end TSSI
